import Mathlib

/-! FieldTripDriverNative

A shallow embedding of `src/FieldTripDriver/FieldTripDriverNative.h`
(branch `adastra_unstable`): the driver's data members and its inline read
accessors `getHeader`, `FoundChannelNames`, `GetChannelName` and
`GetSamplingFrequency`.

The lifecycle methods (`initialize`, `uninitialize`, `start`, `stop`, `loop`,
`requestHeader`, `requestChunk`) are only declared in the header file; their
bodies live in a translation unit that is not among the sources.  They are
modelled from the design document in the second half of the file, each under
a doc comment that says so.
-/

namespace OpenViBEAcquisitionServer

/-! ## Machine numbers -/

/-- Number of values of `OpenViBE::uint32`. -/
def UINT32_MOD : Nat := 2 ^ 32

/-- Width of the significand of an IEEE-754 binary64 (`double`), hidden bit included. -/
def DBL_MANT_DIG : Nat := 53

/-- Number of binary digits of `n`, computed with at most `fuel` halvings. -/
def bitLengthAux : Nat → Nat → Nat
  | 0, _ => 0
  | fuel + 1, n => if n = 0 then 0 else bitLengthAux fuel (n / 2) + 1

/-- Number of binary digits of an unsigned integer of at most 64 bits. -/
def bitLength (n : Nat) : Nat := bitLengthAux 64 n

/-- The value of `static_cast<double>(n)` for an unsigned integer `n`: the
nearest number with a 53-bit significand, ties going to the even significand.
The low `bitLength n - 53` bits are dropped and the kept part is rounded. -/
def castToDouble (n : Nat) : ℚ :=
  let drop := bitLength n - DBL_MANT_DIG
  let q := n / 2 ^ drop
  let r := n % 2 ^ drop
  let half := 2 ^ drop / 2
  let q1 := if half < r ∨ (r = half ∧ 0 < drop ∧ q % 2 = 1) then q + 1 else q
  ((q1 * 2 ^ drop : Nat) : ℚ)

/-! ## The header container -/

/-- Modelled from the spec: the generic header container `CHeader`
(`ovasCHeader.h`) is an external collaborator whose declaration is not among
the sources.  Only what the driver's accessors ask of it is kept: a channel
count, a channel-name table answering any index (no assumption is made on
what it answers outside `[0, channelCount)`), and a sampling frequency with
its "is set" indication.  The two numbers are `uint32` in the interface. -/
structure CHeader where
  m_ui32ChannelCount : Nat
  m_vChannelName : Nat → String
  m_bSamplingFrequencySet : Bool
  m_ui32SamplingFrequency : Nat

/-- Reads `getChannelCount()`, a `uint32`. -/
def CHeader.getChannelCount (h : CHeader) : Nat := h.m_ui32ChannelCount % UINT32_MOD

/-- Reads `getChannelName(index)`. -/
def CHeader.getChannelName (h : CHeader) (index : Nat) : String := h.m_vChannelName index

/-- Reads `isSamplingFrequencySet()`. -/
def CHeader.isSamplingFrequencySet (h : CHeader) : Bool := h.m_bSamplingFrequencySet

/-- Reads `getSamplingFrequency()`, a `uint32`. -/
def CHeader.getSamplingFrequency (h : CHeader) : Nat := h.m_ui32SamplingFrequency % UINT32_MOD

/-- The calls a driver accessor makes on its header, recorded in order. -/
inductive HeaderCall where
  | getChannelCount
  | getChannelName (index : Nat)
  | isSamplingFrequencySet
  | getSamplingFrequency
  deriving DecidableEq, Repr

/-! ## The driver object -/

/-- Modelled from the spec: `message_t` comes from the FieldTrip buffer
library (`message.h`), which is not among the sources; the wire envelope is
protocol version, command code, payload length and payload bytes. -/
structure message_t where
  version : Nat
  command : Nat
  bufsize : Nat
  buf : List Nat
  deriving DecidableEq, Repr

/-- The data members of `class FieldTripDriverNative`, in declaration order.
Pointers are `Option` (`none` is the null pointer); `m_pSample` points to an
array whose length is the allocated capacity.  The `float32`/`float64`
members are only stored, so rationals stand for their values. -/
structure FieldTripDriverNative where
  m_oHeader : CHeader
  m_ui32SampleCountPerSentBlock : Nat
  m_pSample : Option (List ℚ)
  m_ui32DataType : Nat
  m_sHostName : String
  m_ui32PortNumber : Nat
  m_i32ConnectionID : Int
  m_ui32MinSamples : Nat
  m_pWaitData_Request : Option message_t
  m_pGetData_Request : Option message_t
  m_ui32TotalSampleCount : Nat
  m_ui32WaitingTimeMs : Nat
  m_bFirstGetDataRequest : Bool
  m_bCorrectNonIntegerSR : Bool
  m_f64RealSamplingRate : ℚ
  m_f64DiffPerSample : ℚ
  m_f64DriftSinceLastCorrection : ℚ
  l_bFoundChannelNames : Bool

/-- What a call of a (non-const) member function leaves behind: the returned
value, the driver object after the call, and the header calls it made. -/
structure Outcome (α : Type) where
  value : α
  driver : FieldTripDriverNative
  calls : List HeaderCall

namespace FieldTripDriverNative

/-- Source: `const IHeader* getHeader(void) { return &m_oHeader; }`. -/
def getHeader (self : FieldTripDriverNative) : Outcome CHeader :=
  ⟨self.m_oHeader, self, []⟩

/-- Source: `bool FoundChannelNames(){ return l_bFoundChannelNames;}`. -/
def FoundChannelNames (self : FieldTripDriverNative) : Outcome Bool :=
  ⟨self.l_bFoundChannelNames, self, []⟩

/-- Source: `std::string GetChannelName(const OpenViBE::uint32 index)`.
The condition is `index>=0 && index<m_oHeader.getChannelCount()`; the name
table is read only on the true branch. -/
def GetChannelName (self : FieldTripDriverNative) (index : Nat) : Outcome String :=
  if decide (0 ≤ index) && decide (index < self.m_oHeader.getChannelCount) then
    ⟨self.m_oHeader.getChannelName index, self,
      [HeaderCall.getChannelCount, HeaderCall.getChannelName index]⟩
  else
    ⟨"", self, [HeaderCall.getChannelCount]⟩

/-- Source: `double GetSamplingFrequency()`. -/
def GetSamplingFrequency (self : FieldTripDriverNative) : Outcome ℚ :=
  if self.m_oHeader.isSamplingFrequencySet then
    ⟨castToDouble self.m_oHeader.getSamplingFrequency, self,
      [HeaderCall.isSamplingFrequencySet, HeaderCall.getSamplingFrequency]⟩
  else
    ⟨-1, self, [HeaderCall.isSamplingFrequencySet]⟩

end FieldTripDriverNative

/-! ## Lifecycle, modelled from the design document

The bodies of the lifecycle methods are not among the sources.  What follows
renders sections 4.3 to 4.6 and 7 of the design document; the replies of the
buffer server and the wall clock are inputs of each operation.
-/

/-- Modelled from the spec: transport-level failures of section 7. -/
inductive ConnectionError where
  | Refused | Timeout | Closed | AlreadyConnected
  deriving DecidableEq, Repr

/-- Modelled from the spec: peer or protocol mismatch of section 7. -/
inductive ProtocolError where
  | Malformed | UnsupportedVersion
  deriving DecidableEq, Repr

/-- Modelled from the spec: invalid buffer sizing of section 7. -/
inductive ResourceError where
  | InvalidSize
  deriving DecidableEq, Repr

/-- Modelled from the spec: a failure of one of the sub-components
(connection session, wire codec and header negotiator, sample buffer). -/
inductive ComponentError where
  | Connection (e : ConnectionError)
  | Protocol (e : ProtocolError)
  | Resource (e : ResourceError)
  deriving DecidableEq, Repr

/-- Modelled from the spec: the error taxonomy of section 7 as seen by the
host.  `InitError` wraps the failure of a sub-step of initialisation or an
invalid configuration (`none`).  `Precondition` stands for a call made in a
phase the design document does not allow; the document names no error kind
for it. -/
inductive DriverError where
  | Component (e : ComponentError)
  | InitError (cause : Option ComponentError)
  | Precondition
  deriving DecidableEq, Repr

/-- Modelled from the spec: the states of the acquisition loop in section
4.6.  `Looping` is the state during one call of `loop` and is left again
before the call returns, so a sequential model never rests in it. -/
inductive Phase where
  | Created | Initialized | Started | Stopped | Uninitialized
  deriving DecidableEq, Repr

/-- Modelled from the spec: the driver together with the bookkeeping of
sections 3 and 4 that has no data member in the header file: the lifecycle
phase, the write offset into the sample buffer (in samples per channel), the
reference wall-clock time captured at start, the cumulative expected sample
count and the configured default of the minimum-samples threshold. -/
structure Acquisition where
  driver : FieldTripDriverNative
  phase : Phase
  writeOffset : Nat
  referenceTime : ℚ
  expectedSamples : ℚ
  defaultMinSamples : Nat

/-- Modelled from the spec: what a lifecycle call leaves behind: its result,
the state after it, and the blocks handed to the callback during it. -/
structure Step where
  result : Except DriverError Unit
  state : Acquisition
  delivered : List (List ℚ)

/-- Modelled from the spec: section 4.4, `allocate(samplesPerBlock,
channelCount)` fails with `InvalidSize` if either argument is zero and
otherwise yields a buffer of `samplesPerBlock × channelCount` values. -/
def SampleBuffer.allocate (samplesPerBlock channelCount : Nat) :
    Except ResourceError (List ℚ) :=
  if samplesPerBlock = 0 ∨ channelCount = 0 then Except.error ResourceError.InvalidSize
  else Except.ok (List.replicate (samplesPerBlock * channelCount) 0)

/-- Modelled from the spec: section 4.4, `writeInto(offset, samples)` copies
the values into the buffer from the given offset on; the caller guarantees
that the write stays within the capacity. -/
def SampleBuffer.writeInto (buffer : List ℚ) (offset : Nat) (samples : List ℚ) : List ℚ :=
  buffer.take offset ++ samples ++ buffer.drop (offset + samples.length)

/-- Modelled from the spec: the payload of a GET-HEADER response (section 6):
channel count, channel names when the server sends them, and the nominal
sampling frequency (`none` when the reported rate is invalid). -/
structure HeaderPayload where
  channelCount : Nat
  channelNames : Option (List String)
  samplingFrequency : Option Nat

/-- Modelled from the spec: section 4.3, the header negotiator.  It parses
the payload into the header and the names-found flag; when the server omits
the names the flag is false and every name is empty; the sampling frequency
is flagged unset for a zero or invalid rate.  A failed exchange is passed on. -/
def requestHeader (reply : Except ComponentError HeaderPayload) :
    Except ComponentError (CHeader × Bool) :=
  match reply with
  | Except.error e => Except.error e
  | Except.ok p =>
    let names : Nat → String :=
      match p.channelNames with
      | some ns => fun i => ns.getD i ""
      | none => fun _ => ""
    let freq : Nat := p.samplingFrequency.getD 0
    Except.ok
      ({ m_ui32ChannelCount := p.channelCount
         m_vChannelName := names
         m_bSamplingFrequencySet := decide (0 < freq)
         m_ui32SamplingFrequency := freq },
       p.channelNames.isSome)

/-- Modelled from the spec: what the outside world answers during
`initialize`: the attempt to open the session and the GET-HEADER exchange. -/
structure InitEnv where
  connect : Except ConnectionError Nat
  header : Except ComponentError HeaderPayload

/-- Modelled from the spec: section 4.6, `initialize(samplesPerBlock)`
requires `samplesPerBlock > 0`, runs the header negotiator over a session and
allocates the sample buffer for the negotiated channel count; it fails with
`InitError` if a sub-step fails, leaving the driver as it was. -/
def initializeDriver (m : Acquisition) (ui32SampleCountPerSentBlock : Nat) (env : InitEnv) :
    Step :=
  if m.phase ≠ Phase.Created ∧ m.phase ≠ Phase.Uninitialized then
    ⟨Except.error DriverError.Precondition, m, []⟩
  else if ui32SampleCountPerSentBlock = 0 then
    ⟨Except.error (DriverError.InitError none), m, []⟩
  else
    match env.connect with
    | Except.error e =>
      ⟨Except.error (DriverError.InitError (some (ComponentError.Connection e))), m, []⟩
    | Except.ok handle =>
      match requestHeader env.header with
      | Except.error e => ⟨Except.error (DriverError.InitError (some e)), m, []⟩
      | Except.ok (header, found) =>
        match SampleBuffer.allocate ui32SampleCountPerSentBlock header.getChannelCount with
        | Except.error e =>
          ⟨Except.error (DriverError.InitError (some (ComponentError.Resource e))), m, []⟩
        | Except.ok buffer =>
          ⟨Except.ok (),
           { m with
             driver :=
               { m.driver with
                 m_oHeader := header
                 l_bFoundChannelNames := found
                 m_ui32SampleCountPerSentBlock := ui32SampleCountPerSentBlock
                 m_pSample := some buffer
                 m_i32ConnectionID := (handle : Int)
                 m_ui32MinSamples := m.defaultMinSamples }
             phase := Phase.Initialized
             writeOffset := 0 },
           []⟩

/-- Modelled from the spec: section 4.6, `uninitialize()` releases the sample
buffer and disconnects the session (section 4.2: disconnecting is a no-op
when not connected); it never fails, in whatever phase it is called. -/
def uninitializeDriver (m : Acquisition) : Step :=
  ⟨Except.ok (),
   { m with
     driver := { m.driver with m_pSample := none, m_i32ConnectionID := -1 }
     phase := Phase.Uninitialized
     writeOffset := 0 },
   []⟩

/-- Modelled from the spec: what the outside world answers during `start`:
the wall clock and, if the session has to be opened again, the attempt. -/
structure StartEnv where
  now : ℚ
  connect : Except ConnectionError Nat

/-- Modelled from the spec: section 4.6, `start()` requires an initialised
(or stopped) driver, makes sure the session is live, resets the drift state
and captures the reference time (section 4.5), and moves to `Started`. -/
def start (m : Acquisition) (env : StartEnv) : Step :=
  if m.phase ≠ Phase.Initialized ∧ m.phase ≠ Phase.Stopped then
    ⟨Except.error DriverError.Precondition, m, []⟩
  else
    let session : Except ConnectionError Int :=
      if 0 ≤ m.driver.m_i32ConnectionID then Except.ok m.driver.m_i32ConnectionID
      else match env.connect with
        | Except.error e => Except.error e
        | Except.ok handle => Except.ok (handle : Int)
    match session with
    | Except.error e =>
      ⟨Except.error (DriverError.Component (ComponentError.Connection e)), m, []⟩
    | Except.ok handle =>
      ⟨Except.ok (),
       { m with
         driver :=
           { m.driver with
             m_i32ConnectionID := handle
             m_ui32TotalSampleCount := 0
             m_f64DiffPerSample := 0
             m_f64DriftSinceLastCorrection := 0 }
         phase := Phase.Started
         referenceTime := env.now
         expectedSamples := 0 },
       []⟩

/-- Modelled from the spec: section 4.6, `stop()` moves a started driver to
`Stopped` and keeps the connection open. -/
def stop (m : Acquisition) : Step :=
  if m.phase = Phase.Started then ⟨Except.ok (), { m with phase := Phase.Stopped }, []⟩
  else ⟨Except.error DriverError.Precondition, m, []⟩

/-- Modelled from the spec: section 4.5, one consultation of the drift
corrector.  With the sampling frequency unset it is a no-op.  Otherwise the
drift is the expected sample count (elapsed seconds times nominal frequency)
minus the delivered count; a drift of more than one sample moves the
minimum-samples threshold by the rounded drift, never below 1, and clears
the accumulated drift.  The design document leaves the sign and the rounding
open; adding the drift rounded to the nearest integer is the choice made
here. -/
def driftCorrect (m : Acquisition) (now : ℚ) : Acquisition :=
  if m.driver.m_oHeader.isSamplingFrequencySet then
    let nominal : ℚ := (m.driver.m_oHeader.getSamplingFrequency : ℚ)
    let expected : ℚ := (now - m.referenceTime) * nominal
    let drift : ℚ := expected - (m.driver.m_ui32TotalSampleCount : ℚ)
    if 1 < |drift| then
      let adjusted : Int := (m.driver.m_ui32MinSamples : Int) + round drift
      { m with
        driver :=
          { m.driver with
            m_ui32MinSamples := max 1 adjusted.toNat
            m_f64DriftSinceLastCorrection := 0 }
        expectedSamples := expected }
    else
      { m with
        driver := { m.driver with m_f64DriftSinceLastCorrection := drift }
        expectedSamples := expected }
  else m

/-- Modelled from the spec: the response to a WAIT-DATA request (section 6):
a timeout indicator (nothing new arrived in time), the current total sample
count, or a failed exchange. -/
inductive WaitDataReply where
  | Timeout
  | Counts (totalSamples : Nat)
  | Failure (e : ComponentError)

/-- Modelled from the spec: what the outside world answers during one call of
`loop`: the wall clock, the WAIT-DATA response and, for each number of
samples asked for, the GET-DATA response (interleaved values). -/
structure LoopEnv where
  now : ℚ
  waitData : WaitDataReply
  getData : Nat → Except ComponentError (List ℚ)

/-- Modelled from the spec: section 4.6, one call of `loop(callback)`, steps
1 to 8.  `delivered` lists the blocks the callback was invoked with. -/
def loop (m : Acquisition) (env : LoopEnv) : Step :=
  if m.phase ≠ Phase.Started then ⟨Except.error DriverError.Precondition, m, []⟩
  else
    -- 1. the drift corrector decides the threshold of this iteration
    let m1 := driftCorrect m env.now
    -- 2. WAIT-DATA for at least `m1.driver.m_ui32MinSamples` new samples
    match env.waitData with
    -- 3. timeout with zero new data: not an error, no callback
    | WaitDataReply.Timeout => ⟨Except.ok (), m1, []⟩
    -- 8. failures surface to the caller, the driver stays started
    | WaitDataReply.Failure e => ⟨Except.error (DriverError.Component e), m1, []⟩
    | WaitDataReply.Counts total =>
      -- 4. GET-DATA for the new samples, capped to what the block still takes
      let channels := m1.driver.m_oHeader.getChannelCount
      let fresh := total - m1.driver.m_ui32TotalSampleCount
      let room := m1.driver.m_ui32SampleCountPerSentBlock - m1.writeOffset
      let count := min fresh room
      match env.getData count with
      | Except.error e => ⟨Except.error (DriverError.Component e), m1, []⟩
      | Except.ok values =>
        if values.length ≠ count * channels then
          ⟨Except.error (DriverError.Component (ComponentError.Protocol ProtocolError.Malformed)),
            m1, []⟩
        else
          -- 5. copy at the interleaved offset; 6. count the delivered samples
          let buffer := SampleBuffer.writeInto (m1.driver.m_pSample.getD [])
            (m1.writeOffset * channels) values
          let m2 : Acquisition :=
            { m1 with
              driver :=
                { m1.driver with
                  m_pSample := some buffer
                  m_ui32TotalSampleCount := m1.driver.m_ui32TotalSampleCount + count
                  m_bFirstGetDataRequest := false }
              writeOffset := m1.writeOffset + count }
          -- 7. a full block goes to the callback and the offset starts over
          if m2.writeOffset = m2.driver.m_ui32SampleCountPerSentBlock then
            ⟨Except.ok (), { m2 with writeOffset := 0 }, [buffer]⟩
          else ⟨Except.ok (), m2, []⟩

/-- Modelled from the spec: repeated calls of `loop`, one per element of the
list, as the host framework schedules them (section 5). -/
def runLoops (m : Acquisition) : List LoopEnv → Acquisition
  | [] => m
  | env :: rest => runLoops (loop m env).state rest

/-- Modelled from the spec: the header of a driver that has not negotiated
yet.  The stream header is created during `initialize` (section 3); before
that the container holds no channel, no name and no sampling frequency. -/
def emptyHeader : CHeader :=
  { m_ui32ChannelCount := 0
    m_vChannelName := fun _ => ""
    m_bSamplingFrequencySet := false
    m_ui32SamplingFrequency := 0 }

/-- Modelled from the spec: construction (sections 3 and 6).  The session
identity and the configuration inputs are set; nothing is negotiated, no
buffer is allocated, no session is open and no channel name has been found. -/
def construct (hostname : String) (port waitingTimeMs minSamples : Nat) : Acquisition :=
  { driver :=
      { m_oHeader := emptyHeader
        m_ui32SampleCountPerSentBlock := 0
        m_pSample := none
        m_ui32DataType := 0
        m_sHostName := hostname
        m_ui32PortNumber := port
        m_i32ConnectionID := -1
        m_ui32MinSamples := minSamples
        m_pWaitData_Request := none
        m_pGetData_Request := none
        m_ui32TotalSampleCount := 0
        m_ui32WaitingTimeMs := waitingTimeMs
        m_bFirstGetDataRequest := true
        m_bCorrectNonIntegerSR := false
        m_f64RealSamplingRate := 0
        m_f64DiffPerSample := 0
        m_f64DriftSinceLastCorrection := 0
        l_bFoundChannelNames := false }
    phase := Phase.Created
    writeOffset := 0
    referenceTime := 0
    expectedSamples := 0
    defaultMinSamples := minSamples }

/-- Modelled from the spec: section 6, `configure()` is the parameter setup
that precedes the connection; section 3 lets the session identity change
only by such a reconfiguration before connect. -/
def configure (m : Acquisition) (hostname : String) (port : Nat) : Step :=
  if 0 ≤ m.driver.m_i32ConnectionID then ⟨Except.error DriverError.Precondition, m, []⟩
  else
    ⟨Except.ok (),
     { m with driver := { m.driver with m_sHostName := hostname, m_ui32PortNumber := port } },
     []⟩

/-- Modelled from the spec: the states a driver can be in: what construction
yields, and what any call of a lifecycle method leaves, successful or not,
whatever the buffer server and the clock answer.  The header and the
names-found flag are protected and private members with no setter, so these
calls are their only writers. -/
inductive Reachable : Acquisition → Prop where
  | construct (hostname : String) (port waitingTimeMs minSamples : Nat) :
      Reachable (construct hostname port waitingTimeMs minSamples)
  | configure (m : Acquisition) (hostname : String) (port : Nat) :
      Reachable m → Reachable (configure m hostname port).state
  | initializeDriver (m : Acquisition) (samplesPerBlock : Nat) (env : InitEnv) :
      Reachable m → Reachable (initializeDriver m samplesPerBlock env).state
  | uninitializeDriver (m : Acquisition) :
      Reachable m → Reachable (uninitializeDriver m).state
  | start (m : Acquisition) (env : StartEnv) :
      Reachable m → Reachable (start m env).state
  | stop (m : Acquisition) :
      Reachable m → Reachable (stop m).state
  | loop (m : Acquisition) (env : LoopEnv) :
      Reachable m → Reachable (loop m env).state

/-- What the header negotiator leaves behind: a false names-found flag goes
with a header whose every channel name is empty. -/
def NamesAgree (d : FieldTripDriverNative) : Prop :=
  d.l_bFoundChannelNames = false → ∀ index : Nat, d.m_oHeader.getChannelName index = ""

/-! ## Sample states used in the closed statements -/

/-- A header with four named channels sampled at 250 Hz. -/
def demoHeader : CHeader :=
  { m_ui32ChannelCount := 4
    m_vChannelName := fun i => ["Fz", "Cz", "Pz", "Oz"].getD i ""
    m_bSamplingFrequencySet := true
    m_ui32SamplingFrequency := 250 }

/-- A driver object around a given header; the other members hold the values
of a freshly constructed, not yet connected driver. -/
def driverWith (h : CHeader) (foundNames : Bool) : FieldTripDriverNative :=
  { m_oHeader := h
    m_ui32SampleCountPerSentBlock := 0
    m_pSample := none
    m_ui32DataType := 0
    m_sHostName := "localhost"
    m_ui32PortNumber := 1979
    m_i32ConnectionID := -1
    m_ui32MinSamples := 1
    m_pWaitData_Request := none
    m_pGetData_Request := none
    m_ui32TotalSampleCount := 0
    m_ui32WaitingTimeMs := 40
    m_bFirstGetDataRequest := true
    m_bCorrectNonIntegerSR := false
    m_f64RealSamplingRate := 0
    m_f64DiffPerSample := 0
    m_f64DriftSinceLastCorrection := 0
    l_bFoundChannelNames := foundNames }

/-- The driver of the end-to-end scenario: four channels, names found. -/
def demoDriver : FieldTripDriverNative := driverWith demoHeader true

/-- A header whose server sent no channel names: two channels, every name empty. -/
def namelessHeader : CHeader :=
  { m_ui32ChannelCount := 2
    m_vChannelName := fun _ => ""
    m_bSamplingFrequencySet := false
    m_ui32SamplingFrequency := 0 }

/-- A driver model straight after construction: nothing negotiated, no
buffer, no session, default threshold 1. -/
def freshAcquisition : Acquisition :=
  { driver := driverWith namelessHeader false
    phase := Phase.Created
    writeOffset := 0
    referenceTime := 0
    expectedSamples := 0
    defaultMinSamples := 1 }

/-- The server of the end-to-end scenario: the session opens and the header
reports four named channels at 250 Hz. -/
def demoInitEnv : InitEnv :=
  { connect := Except.ok 3
    header := Except.ok
      { channelCount := 4
        channelNames := some ["Fz", "Cz", "Pz", "Oz"]
        samplingFrequency := some 250 } }

/-- A server that reports two channels and no usable sampling frequency. -/
def unsetInitEnv : InitEnv :=
  { connect := Except.ok 3
    header := Except.ok
      { channelCount := 2
        channelNames := none
        samplingFrequency := some 0 } }

/-- A started driver whose header reports the sampling frequency as unset. -/
def degradedAcquisition : Acquisition :=
  (start (initializeDriver freshAcquisition 2 unsetInitEnv).state
    { now := 0, connect := Except.ok 3 }).state

/-- An iteration in which WAIT-DATA times out with nothing new. -/
def timeoutEnv : LoopEnv :=
  { now := 1
    waitData := WaitDataReply.Timeout
    getData := fun _ => Except.ok [] }

/-- An iteration in which one new sample per channel arrives, two channels. -/
def oneSampleEnv (total : Nat) : LoopEnv :=
  { now := 1
    waitData := WaitDataReply.Counts total
    getData := fun n => Except.ok (List.replicate (n * 2) 7) }

/-- A started driver that negotiated with a server sending two channels and
no channel names, then polled once without news. -/
def namelessAcquisition : Acquisition :=
  (loop
    (start (initializeDriver (construct "localhost" 1979 40 1) 2 unsetInitEnv).state
      { now := 0, connect := Except.ok 3 }).state
    timeoutEnv).state

/-! ## Conversion to `double` is exact on `uint32` -/

/-- A number below `2 ^ k` has at most `k` binary digits. -/
theorem bitLengthAux_le (fuel : Nat) : ∀ (n k : Nat), n < 2 ^ k → bitLengthAux fuel n ≤ k := by
  induction fuel with
  | zero => intro n k _; simp [bitLengthAux]
  | succ fuel ih =>
    intro n k hn
    unfold bitLengthAux
    split
    · exact Nat.zero_le k
    · rename_i hne
      cases k with
      | zero => simp at hn; exact absurd hn hne
      | succ k =>
        have hhalf : n / 2 < 2 ^ k := by
          rw [Nat.div_lt_iff_lt_mul (by decide : 0 < 2)]
          rw [pow_succ] at hn
          exact hn
        have := ih (n / 2) k hhalf
        omega

/-- Below `2 ^ 53` nothing is dropped, so the conversion returns the integer itself. -/
theorem castToDouble_exact (n : Nat) (hn : n < 2 ^ DBL_MANT_DIG) : castToDouble n = (n : ℚ) := by
  have hlen : bitLength n - DBL_MANT_DIG = 0 :=
    Nat.sub_eq_zero_of_le (bitLengthAux_le 64 n DBL_MANT_DIG hn)
  simp [castToDouble, hlen, Nat.mod_one]

/-- Every `uint32` converts to `double` without rounding. -/
theorem castToDouble_uint32 (n : Nat) : castToDouble (n % UINT32_MOD) = ((n % UINT32_MOD : Nat) : ℚ) := by
  apply castToDouble_exact
  have h : n % UINT32_MOD < UINT32_MOD := Nat.mod_lt n (by decide)
  have h2 : UINT32_MOD ≤ 2 ^ DBL_MANT_DIG := by decide
  exact Nat.lt_of_lt_of_le h h2

/-! ## The read accessors -/

namespace FieldTripDriverNative

/-- C1: for every driver and every unsigned 32-bit index at or above the
header's channel count, `GetChannelName` returns the empty string, makes no
`getChannelName` call on the header at all, and returns the empty string
whatever the header's name table holds. -/
theorem GetChannelName_out_of_range (self : FieldTripDriverNative) (index : Nat)
    (_hindex : index < UINT32_MOD) (hrange : self.m_oHeader.getChannelCount ≤ index) :
    (self.GetChannelName index).value = "" ∧
    (∀ j, HeaderCall.getChannelName j ∉ (self.GetChannelName index).calls) ∧
    (∀ table : Nat → String,
      (GetChannelName { self with m_oHeader := { self.m_oHeader with m_vChannelName := table } }
        index).value = "") := by
  have hnot : ¬ index < self.m_oHeader.getChannelCount := Nat.not_lt.mpr hrange
  refine ⟨?_, ?_, ?_⟩
  · simp [GetChannelName, hnot]
  · intro j
    simp [GetChannelName, hnot]
  · intro table
    have hsame : CHeader.getChannelCount { self.m_oHeader with m_vChannelName := table }
        = self.m_oHeader.getChannelCount := rfl
    simp [GetChannelName, hsame, hnot]

theorem GetChannelName_out_of_range_witness :
    (4 : Nat) < UINT32_MOD ∧ demoDriver.m_oHeader.getChannelCount ≤ 4 ∧
    (demoDriver.GetChannelName 4).value = "" ∧
    (∀ j, HeaderCall.getChannelName j ∉ (demoDriver.GetChannelName 4).calls) ∧
    (∀ table : Nat → String,
      (GetChannelName
        { demoDriver with m_oHeader := { demoDriver.m_oHeader with m_vChannelName := table } }
        4).value = "") :=
  ⟨by decide, by decide, GetChannelName_out_of_range demoDriver 4 (by decide) (by decide)⟩

/-- C2: for every driver and every index below the header's channel count,
`GetChannelName` returns exactly what the header returned by `getHeader`
answers for that index. -/
theorem GetChannelName_in_range (self : FieldTripDriverNative) (index : Nat)
    (hrange : index < self.m_oHeader.getChannelCount) :
    (self.GetChannelName index).value = self.getHeader.value.getChannelName index := by
  simp [GetChannelName, getHeader, hrange]

theorem GetChannelName_in_range_witness :
    (2 : Nat) < demoDriver.m_oHeader.getChannelCount ∧
    (demoDriver.GetChannelName 2).value = demoDriver.getHeader.value.getChannelName 2 ∧
    demoDriver.getHeader.value.getChannelName 2 = "Pz" :=
  ⟨by decide, GetChannelName_in_range demoDriver 2 (by decide), by decide⟩

/-- C3: `GetSamplingFrequency` returns the header's sampling frequency as a
real number when the header reports it set, and -1 when it reports it unset. -/
theorem GetSamplingFrequency_spec (self : FieldTripDriverNative) :
    (self.m_oHeader.isSamplingFrequencySet = true →
      self.GetSamplingFrequency.value = (self.m_oHeader.getSamplingFrequency : ℚ)) ∧
    (self.m_oHeader.isSamplingFrequencySet = false →
      self.GetSamplingFrequency.value = -1) := by
  constructor
  · intro hset
    simp only [GetSamplingFrequency, hset, if_true]
    exact castToDouble_uint32 _
  · intro hunset
    simp [GetSamplingFrequency, hunset]

theorem GetSamplingFrequency_spec_witness :
    demoDriver.m_oHeader.isSamplingFrequencySet = true ∧
    demoDriver.m_oHeader.getSamplingFrequency = 250 ∧
    demoDriver.GetSamplingFrequency.value = 250 :=
  ⟨rfl, by decide, by
    have h := (GetSamplingFrequency_spec demoDriver).1 rfl
    have h250 : demoDriver.m_oHeader.getSamplingFrequency = 250 := by decide
    rw [h, h250]
    simp⟩

/-- C9: the result of `GetSamplingFrequency` is -1 exactly when the header
reports the sampling frequency as unset; when it is set the result is the
header's unsigned 32-bit frequency, converted without rounding, and so is
not negative. -/
theorem GetSamplingFrequency_sentinel (self : FieldTripDriverNative) :
    (self.GetSamplingFrequency.value = -1 ↔ self.m_oHeader.isSamplingFrequencySet = false) ∧
    (self.m_oHeader.isSamplingFrequencySet = true →
      0 ≤ self.GetSamplingFrequency.value ∧
      self.GetSamplingFrequency.value = (self.m_oHeader.getSamplingFrequency : ℚ) ∧
      self.m_oHeader.getSamplingFrequency < UINT32_MOD) := by
  have hset : self.m_oHeader.isSamplingFrequencySet = true →
      self.GetSamplingFrequency.value = (self.m_oHeader.getSamplingFrequency : ℚ) := by
    intro h
    simp only [GetSamplingFrequency, h, if_true]
    exact castToDouble_uint32 _
  have hnonneg : (0 : ℚ) ≤ (self.m_oHeader.getSamplingFrequency : ℚ) := Nat.cast_nonneg _
  refine ⟨⟨?_, ?_⟩, ?_⟩
  · intro hval
    cases hcase : self.m_oHeader.isSamplingFrequencySet with
    | false => rfl
    | true =>
      rw [hset hcase] at hval
      linarith
  · intro hunset
    simp [GetSamplingFrequency, hunset]
  · intro h
    refine ⟨?_, hset h, ?_⟩
    · rw [hset h]
      exact hnonneg
    · exact Nat.mod_lt _ (by decide)

theorem GetSamplingFrequency_sentinel_witness :
    demoDriver.m_oHeader.isSamplingFrequencySet = true ∧
    (0 : ℚ) ≤ demoDriver.GetSamplingFrequency.value ∧
    (driverWith namelessHeader false).GetSamplingFrequency.value = -1 :=
  ⟨rfl, ((GetSamplingFrequency_sentinel demoDriver).2 rfl).1,
    (GetSamplingFrequency_sentinel (driverWith namelessHeader false)).1.mpr rfl⟩

/-- C10: the read accessors leave the driver object as it was, every data
member included, and `FoundChannelNames` returns the stored flag. -/
theorem accessors_pure (self : FieldTripDriverNative) :
    self.getHeader.driver = self ∧
    self.FoundChannelNames.driver = self ∧
    self.FoundChannelNames.value = self.l_bFoundChannelNames ∧
    (∀ index : Nat, (self.GetChannelName index).driver = self) ∧
    self.GetSamplingFrequency.driver = self := by
  refine ⟨rfl, rfl, rfl, ?_, ?_⟩
  · intro index
    unfold GetChannelName
    split <;> rfl
  · unfold GetSamplingFrequency
    split <;> rfl

end FieldTripDriverNative

/-! ## Lifecycle properties of the modelled operations -/

/-- With the sampling frequency unset the drift corrector returns its input. -/
theorem driftCorrect_unset (m : Acquisition) (now : ℚ)
    (hunset : m.driver.m_oHeader.isSamplingFrequencySet = false) : driftCorrect m now = m := by
  simp [driftCorrect, hunset]

/-- The drift corrector does not move the lifecycle phase. -/
theorem driftCorrect_phase (m : Acquisition) (now : ℚ) : (driftCorrect m now).phase = m.phase := by
  unfold driftCorrect
  split
  · simp only []
    split <;> rfl
  · rfl

/-- A call of `loop` never changes the phase, failures included. -/
theorem loop_phase (m : Acquisition) (env : LoopEnv) : (loop m env).state.phase = m.phase := by
  unfold loop
  split
  · rfl
  · simp only []
    split
    · exact driftCorrect_phase m env.now
    · exact driftCorrect_phase m env.now
    · split
      · exact driftCorrect_phase m env.now
      · split
        · exact driftCorrect_phase m env.now
        · split <;> exact driftCorrect_phase m env.now

/-- One iteration in degraded mode keeps the header, the threshold and its default. -/
theorem loop_degraded (m : Acquisition) (env : LoopEnv)
    (hunset : m.driver.m_oHeader.isSamplingFrequencySet = false) :
    (loop m env).state.driver.m_oHeader = m.driver.m_oHeader ∧
    (loop m env).state.driver.m_ui32MinSamples = m.driver.m_ui32MinSamples ∧
    (loop m env).state.defaultMinSamples = m.defaultMinSamples := by
  unfold loop
  rw [driftCorrect_unset m env.now hunset]
  split
  · exact ⟨rfl, rfl, rfl⟩
  · simp only []
    split
    · exact ⟨rfl, rfl, rfl⟩
    · exact ⟨rfl, rfl, rfl⟩
    · split
      · exact ⟨rfl, rfl, rfl⟩
      · split
        · exact ⟨rfl, rfl, rfl⟩
        · split <;> exact ⟨rfl, rfl, rfl⟩

/-- Any number of iterations in degraded mode keeps the threshold and the phase. -/
theorem runLoops_degraded (envs : List LoopEnv) : ∀ (m : Acquisition),
    m.driver.m_oHeader.isSamplingFrequencySet = false →
    (runLoops m envs).driver.m_ui32MinSamples = m.driver.m_ui32MinSamples ∧
    (runLoops m envs).phase = m.phase := by
  induction envs with
  | nil => intro m _; exact ⟨rfl, rfl⟩
  | cons env rest ih =>
    intro m hunset
    have hstep := loop_degraded m env hunset
    have hunset2 : (loop m env).state.driver.m_oHeader.isSamplingFrequencySet = false := by
      rw [hstep.1]; exact hunset
    have hrest := ih (loop m env).state hunset2
    simp only [runLoops]
    exact ⟨hrest.1.trans hstep.2.1, hrest.2.trans (loop_phase m env)⟩

/-- The drift corrector writes neither the header nor the names-found flag. -/
theorem driftCorrect_header (m : Acquisition) (now : ℚ) :
    (driftCorrect m now).driver.m_oHeader = m.driver.m_oHeader ∧
    (driftCorrect m now).driver.l_bFoundChannelNames = m.driver.l_bFoundChannelNames := by
  unfold driftCorrect
  split
  · simp only []
    split <;> exact ⟨rfl, rfl⟩
  · exact ⟨rfl, rfl⟩

/-- A call of `loop` writes neither the header nor the names-found flag. -/
theorem loop_header (m : Acquisition) (env : LoopEnv) :
    (loop m env).state.driver.m_oHeader = m.driver.m_oHeader ∧
    (loop m env).state.driver.l_bFoundChannelNames = m.driver.l_bFoundChannelNames := by
  unfold loop
  split
  · exact ⟨rfl, rfl⟩
  · simp only []
    split
    · exact driftCorrect_header m env.now
    · exact driftCorrect_header m env.now
    · split
      · exact driftCorrect_header m env.now
      · split
        · exact driftCorrect_header m env.now
        · split <;> exact driftCorrect_header m env.now

/-- A call of `start` writes neither the header nor the names-found flag. -/
theorem start_header (m : Acquisition) (env : StartEnv) :
    (start m env).state.driver.m_oHeader = m.driver.m_oHeader ∧
    (start m env).state.driver.l_bFoundChannelNames = m.driver.l_bFoundChannelNames := by
  unfold start
  split
  · exact ⟨rfl, rfl⟩
  · simp only []
    split <;> exact ⟨rfl, rfl⟩

/-- A call of `stop` writes neither the header nor the names-found flag. -/
theorem stop_header (m : Acquisition) :
    (stop m).state.driver.m_oHeader = m.driver.m_oHeader ∧
    (stop m).state.driver.l_bFoundChannelNames = m.driver.l_bFoundChannelNames := by
  unfold stop
  split <;> exact ⟨rfl, rfl⟩

/-- A call of `configure` writes neither the header nor the names-found flag. -/
theorem configure_header (m : Acquisition) (hostname : String) (port : Nat) :
    (configure m hostname port).state.driver.m_oHeader = m.driver.m_oHeader ∧
    (configure m hostname port).state.driver.l_bFoundChannelNames
      = m.driver.l_bFoundChannelNames := by
  unfold configure
  split <;> exact ⟨rfl, rfl⟩

/-- The header negotiator reports names as not found only together with a
header whose every name is empty. -/
theorem requestHeader_names (reply : Except ComponentError HeaderPayload) (header : CHeader)
    (found : Bool) (hreply : requestHeader reply = Except.ok (header, found))
    (hfound : found = false) : ∀ index : Nat, header.getChannelName index = "" := by
  unfold requestHeader at hreply
  cases reply with
  | error e => simp at hreply
  | ok p =>
    simp only [Except.ok.injEq, Prod.mk.injEq] at hreply
    obtain ⟨hheader, hflag⟩ := hreply
    cases hnames : p.channelNames with
    | some ns => rw [hnames] at hflag; rw [← hflag] at hfound; simp at hfound
    | none =>
      intro index
      rw [← hheader, hnames]
      rfl

/-- A call of `initialize`, successful or not, keeps the agreement between
the names-found flag and the header's names. -/
theorem initializeDriver_names (m : Acquisition) (samplesPerBlock : Nat) (env : InitEnv)
    (hm : NamesAgree m.driver) :
    NamesAgree (initializeDriver m samplesPerBlock env).state.driver := by
  unfold initializeDriver
  split
  · exact hm
  · split
    · exact hm
    · split
      · exact hm
      · split
        · exact hm
        · rename_i header found hheader
          split
          · exact hm
          · intro hflag index
            exact requestHeader_names env.header header found hheader hflag index

/-- Every state the driver can be in keeps the agreement between the
names-found flag and the header's names. -/
theorem Reachable.namesAgree (m : Acquisition) (hm : Reachable m) : NamesAgree m.driver := by
  induction hm with
  | construct hostname port waitingTimeMs minSamples => intro _ index; rfl
  | configure m hostname port _ ih =>
    intro hflag index
    rw [(configure_header m hostname port).1]
    exact ih ((configure_header m hostname port).2 ▸ hflag) index
  | initializeDriver m samplesPerBlock env _ ih =>
    exact initializeDriver_names m samplesPerBlock env ih
  | uninitializeDriver m _ ih => exact ih
  | start m env _ ih =>
    intro hflag index
    rw [(start_header m env).1]
    exact ih ((start_header m env).2 ▸ hflag) index
  | stop m _ ih =>
    intro hflag index
    rw [(stop_header m).1]
    exact ih ((stop_header m).2 ▸ hflag) index
  | loop m env _ ih =>
    intro hflag index
    rw [(loop_header m env).1]
    exact ih ((loop_header m env).2 ▸ hflag) index

/-- C4: in every state the driver can be in, if the names-found flag is
false (`FoundChannelNames()` returns false) then `GetChannelName` returns
the empty string for every index, the indices below the channel count
included. -/
theorem GetChannelName_names_not_found (m : Acquisition) (hm : Reachable m)
    (hflag : m.driver.FoundChannelNames.value = false) (index : Nat) :
    (m.driver.GetChannelName index).value = "" := by
  have hnames := Reachable.namesAgree m hm hflag index
  unfold FieldTripDriverNative.GetChannelName
  split
  · exact hnames
  · rfl

theorem GetChannelName_names_not_found_witness :
    Reachable namelessAcquisition ∧
    namelessAcquisition.driver.FoundChannelNames.value = false ∧
    1 < namelessAcquisition.driver.m_oHeader.getChannelCount ∧
    (namelessAcquisition.driver.GetChannelName 1).value = "" :=
  have hreach : Reachable namelessAcquisition :=
    Reachable.loop _ _ (Reachable.start _ _
      (Reachable.initializeDriver _ _ _ (Reachable.construct "localhost" 1979 40 1)))
  ⟨hreach, rfl, by decide, GetChannelName_names_not_found namelessAcquisition hreach rfl 1⟩

/-- C5: on a started driver whose header reports the sampling frequency as
unset and whose minimum-samples threshold is at its configured default, the
threshold still equals that default after every iteration of any sequence of
loop iterations, and the driver is still started. -/
theorem degraded_mode_threshold (m : Acquisition) (envs : List LoopEnv)
    (hstarted : m.phase = Phase.Started)
    (hunset : m.driver.m_oHeader.isSamplingFrequencySet = false)
    (hdefault : m.driver.m_ui32MinSamples = m.defaultMinSamples) :
    ∀ k : Nat,
      (runLoops m (envs.take k)).driver.m_ui32MinSamples = m.defaultMinSamples ∧
      (runLoops m (envs.take k)).phase = Phase.Started := by
  intro k
  have h := runLoops_degraded (envs.take k) m hunset
  exact ⟨h.1.trans hdefault, h.2.trans hstarted⟩

theorem degraded_mode_threshold_witness :
    degradedAcquisition.phase = Phase.Started ∧
    degradedAcquisition.driver.m_oHeader.isSamplingFrequencySet = false ∧
    degradedAcquisition.driver.m_ui32MinSamples = degradedAcquisition.defaultMinSamples ∧
    (runLoops degradedAcquisition
      ([oneSampleEnv 1, timeoutEnv, oneSampleEnv 2].take 3)).driver.m_ui32MinSamples = 1 :=
  ⟨rfl, rfl, rfl,
    (degraded_mode_threshold degradedAcquisition [oneSampleEnv 1, timeoutEnv, oneSampleEnv 2]
      rfl rfl rfl 3).1⟩

/-- C6: whenever `initialize(samplesPerBlock)` with `samplesPerBlock > 0`
succeeds, the sample buffer exists and its capacity is `samplesPerBlock`
times the channel count of the header negotiated during that call, which is
the header the driver then holds. -/
theorem initialize_buffer_capacity (m : Acquisition) (samplesPerBlock : Nat) (env : InitEnv)
    (_hpos : 0 < samplesPerBlock)
    (hok : (initializeDriver m samplesPerBlock env).result = Except.ok ()) :
    ∃ (header : CHeader) (found : Bool) (buffer : List ℚ),
      requestHeader env.header = Except.ok (header, found) ∧
      (initializeDriver m samplesPerBlock env).state.driver.m_oHeader = header ∧
      (initializeDriver m samplesPerBlock env).state.driver.m_pSample = some buffer ∧
      buffer.length = samplesPerBlock * header.getChannelCount := by
  unfold initializeDriver at hok ⊢
  by_cases hphase : m.phase ≠ Phase.Created ∧ m.phase ≠ Phase.Uninitialized
  · rw [if_pos hphase] at hok
    simp at hok
  · rw [if_neg hphase] at hok ⊢
    by_cases hzero : samplesPerBlock = 0
    · rw [if_pos hzero] at hok
      simp at hok
    · rw [if_neg hzero] at hok ⊢
      cases hconnect : env.connect with
      | error e => simp [hconnect] at hok
      | ok handle =>
        cases hheader : requestHeader env.header with
        | error e => simp [hconnect, hheader] at hok
        | ok negotiated =>
          obtain ⟨header, found⟩ := negotiated
          cases halloc : SampleBuffer.allocate samplesPerBlock header.getChannelCount with
          | error e => simp [hconnect, hheader, halloc] at hok
          | ok buffer =>
            refine ⟨header, found, buffer, rfl, ?_⟩
            simp only [halloc]
            refine ⟨trivial, trivial, ?_⟩
            unfold SampleBuffer.allocate at halloc
            split at halloc
            · simp at halloc
            · injection halloc with hbuf
              rw [← hbuf]
              simp

theorem initialize_buffer_capacity_witness :
    0 < 100 ∧ (initializeDriver freshAcquisition 100 demoInitEnv).result = Except.ok () ∧
    ∃ (header : CHeader) (found : Bool) (buffer : List ℚ),
      requestHeader demoInitEnv.header = Except.ok (header, found) ∧
      (initializeDriver freshAcquisition 100 demoInitEnv).state.driver.m_oHeader = header ∧
      (initializeDriver freshAcquisition 100 demoInitEnv).state.driver.m_pSample = some buffer ∧
      buffer.length = 100 * header.getChannelCount :=
  ⟨by decide, rfl, initialize_buffer_capacity freshAcquisition 100 demoInitEnv (by decide) rfl⟩

/-- C7: `uninitialize()` reports no error in any state, and calling it a
second time reports no error either and leaves the state that the first call
left. -/
theorem uninitialize_idempotent (m : Acquisition) :
    (uninitializeDriver m).result = Except.ok () ∧
    (uninitializeDriver (uninitializeDriver m).state).result = Except.ok () ∧
    (uninitializeDriver (uninitializeDriver m).state).state = (uninitializeDriver m).state ∧
    (uninitializeDriver (uninitializeDriver m).state).delivered = (uninitializeDriver m).delivered :=
  ⟨rfl, rfl, rfl, rfl⟩

/-- C8: on a started driver, a call of `loop` whose WAIT-DATA request times
out with nothing new returns success, hands no block to the callback, and
leaves the driver started. -/
theorem loop_timeout (m : Acquisition) (env : LoopEnv)
    (hstarted : m.phase = Phase.Started) (htimeout : env.waitData = WaitDataReply.Timeout) :
    (loop m env).result = Except.ok () ∧ (loop m env).delivered = [] ∧
    (loop m env).state.phase = Phase.Started := by
  refine ⟨?_, ?_, (loop_phase m env).trans hstarted⟩
  · simp [loop, hstarted, htimeout]
  · simp [loop, hstarted, htimeout]

theorem loop_timeout_witness :
    degradedAcquisition.phase = Phase.Started ∧ timeoutEnv.waitData = WaitDataReply.Timeout ∧
    (loop degradedAcquisition timeoutEnv).result = Except.ok () ∧
    (loop degradedAcquisition timeoutEnv).delivered = [] ∧
    (loop degradedAcquisition timeoutEnv).state.phase = Phase.Started :=
  ⟨rfl, rfl, loop_timeout degradedAcquisition timeoutEnv rfl rfl⟩

end OpenViBEAcquisitionServer
